import Mathlib

/-!
Shallow embedding of the talky token/storage backend (main.py) and proofs
about its session-scoped path policy, signing endpoints, session bootstrap,
ephemeral-token issuer and lesson generation handler.

External collaborators (Google Cloud Storage signing, the Gemini client)
are modelled as oracle structures whose fields are the exact calls the code
makes; an `Except.error ()` from an oracle models any raised exception.
FastAPI's `HTTPException` is modelled as a status/detail pair.
-/

deriving instance DecidableEq for Except

/-- FastAPI HTTPException: a status code and a client-facing detail string. -/
structure HTTPException where
  status_code : Nat
  detail : String
deriving DecidableEq, Repr

/-- Python `s.lstrip("/")`: removes every leading '/' character. -/
def lstrip_slashes (s : String) : String :=
  String.mk (s.data.dropWhile (fun c => c == '/'))

/-- Python `s.startswith(p)`. -/
def py_startswith (s p : String) : Bool :=
  p.data.isPrefixOf s.data

/-- Python `s.split("/")` on the character list: splitting on every
occurrence of the separator, keeping empty segments, so that the result
always has one more element than the number of separators. -/
def py_split_slash_aux : List Char → List (List Char)
  | [] => [[]]
  | c :: cs =>
    if c = '/' then [] :: py_split_slash_aux cs
    else
      match py_split_slash_aux cs with
      | [] => [[c]]
      | seg :: rest => (c :: seg) :: rest

/-- Python `s.split("/")`. -/
def py_split_slash (s : String) : List String :=
  (py_split_slash_aux s.data).map String.mk

/-- `session_prefix` from main.py: the storage namespace of a session. -/
def session_prefix_of (session_id : String) : String :=
  "sessions/" ++ session_id

/-- `assert_session_path` from main.py: normalize the client-supplied path by
stripping leading separators, require it to sit under the session's storage
namespace, and reject any parent-directory segment. -/
def assert_session_path (session_id : String) (path : String) : Except HTTPException String :=
  let normalized := lstrip_slashes path
  let expected_pre := session_prefix_of session_id ++ "/"
  if !(py_startswith normalized expected_pre) then
    .error ⟨400, "path must be inside session prefix"⟩
  else if (py_split_slash normalized).contains ".." then
    .error ⟨400, "invalid path"⟩
  else
    .ok normalized

/-- Helper: success of `assert_session_path`, characterised. -/
theorem assert_ok_iff (s p n : String) :
    assert_session_path s p = .ok n ↔
      py_startswith (lstrip_slashes p) (session_prefix_of s ++ "/") = true ∧
      ".." ∉ py_split_slash (lstrip_slashes p) ∧
      n = lstrip_slashes p := by
  cases h1 : py_startswith (lstrip_slashes p) (session_prefix_of s ++ "/") <;>
    by_cases h2 : ".." ∈ py_split_slash (lstrip_slashes p) <;>
      simp [assert_session_path, h1, h2, eq_comm]

/-- Helper: every failure of `assert_session_path` carries status 400. -/
theorem assert_error_400 (s p : String) (e : HTTPException)
    (h : assert_session_path s p = .error e) : e.status_code = 400 := by
  cases h1 : py_startswith (lstrip_slashes p) (session_prefix_of s ++ "/") <;>
    by_cases h2 : ".." ∈ py_split_slash (lstrip_slashes p) <;>
      simp [assert_session_path, h1, h2] at h <;> (subst h; rfl)

/-- Spec-side reading of the normalization step, modelled from the claim's
words "after stripping one leading separator": removes at most one leading
'/' character. -/
def strip_one_leading_separator (s : String) : String :=
  match s.data with
  | '/' :: rest => String.mk rest
  | _ => s

/-- Helper: stripping leading slashes is idempotent on the character list. -/
theorem dropWhile_slash_idem (l : List Char) :
    (l.dropWhile (fun c => c == '/')).dropWhile (fun c => c == '/')
      = l.dropWhile (fun c => c == '/') := by
  induction l with
  | nil => rfl
  | cons c cs ih =>
    by_cases h : c = '/'
    · simp [List.dropWhile_cons, h, ih]
    · simp [List.dropWhile_cons, h]

/-- Helper: `lstrip_slashes` is idempotent. -/
theorem lstrip_slashes_idem (s : String) :
    lstrip_slashes (lstrip_slashes s) = lstrip_slashes s := by
  unfold lstrip_slashes
  exact congrArg String.mk (dropWhile_slash_idem s.data)

/-- C1 (amended): for every sessionId S and path P, assert_session_path
succeeds iff P, after stripping ALL leading separators, starts with
"sessions/"+S+"/" and contains no segment equal to ".."; on success it
returns that fully-stripped normalized path. -/
theorem validateSessionPath_ok_iff (S P N : String) :
    assert_session_path S P = .ok N ↔
      py_startswith (lstrip_slashes P) (session_prefix_of S ++ "/") = true ∧
      ".." ∉ py_split_slash (lstrip_slashes P) ∧
      N = lstrip_slashes P :=
  assert_ok_iff S P N

/-- C1 counterexample: on path "//sessions/abc/a.txt" the code succeeds and
returns "sessions/abc/a.txt", although after stripping only one leading
separator the path "/sessions/abc/a.txt" does not start with the session
prefix, so the claim as stated (strip a single separator) predicts failure. -/
theorem validateSessionPath_strip_one_cex :
    assert_session_path "abc" "//sessions/abc/a.txt" = .ok "sessions/abc/a.txt" ∧
    strip_one_leading_separator "//sessions/abc/a.txt" = "/sessions/abc/a.txt" ∧
    py_startswith "/sessions/abc/a.txt" (session_prefix_of "abc" ++ "/") = false := by
  refine ⟨by decide, by decide, by decide⟩

/-- C1 witness: a single-slash-led in-session path for which the code and the
amended characterisation agree. -/
theorem validateSessionPath_ok_iff_witness :
    assert_session_path "abc" "/sessions/abc/a.txt" = .ok "sessions/abc/a.txt" :=
  (validateSessionPath_ok_iff "abc" "/sessions/abc/a.txt" "sessions/abc/a.txt").mpr
    ⟨by decide, by decide, by decide⟩

/-- C3: the prefix check is performed first and the two failures are
distinct: a path whose normalized form is outside the session prefix fails
with the outside-session-prefix 400 error (even if it also contains a ".."
segment), and a path inside the prefix containing a ".." segment fails with
the invalid-path 400 error. -/
theorem assert_session_path_error_order (S P : String) :
    (py_startswith (lstrip_slashes P) (session_prefix_of S ++ "/") = false →
      assert_session_path S P = .error ⟨400, "path must be inside session prefix"⟩) ∧
    (py_startswith (lstrip_slashes P) (session_prefix_of S ++ "/") = true →
      ".." ∈ py_split_slash (lstrip_slashes P) →
      assert_session_path S P = .error ⟨400, "invalid path"⟩) := by
  constructor
  · intro h1
    simp [assert_session_path, h1]
  · intro h1 h2
    simp [assert_session_path, h1, h2]

/-- C3 witness: a path outside the prefix that also contains ".." gets the
outside-session-prefix error; a traversal inside the prefix gets the
invalid-path error. -/
theorem assert_session_path_error_order_witness :
    assert_session_path "abc" "sessions/zzz/../a" =
      .error ⟨400, "path must be inside session prefix"⟩ ∧
    assert_session_path "abc" "sessions/abc/../a" = .error ⟨400, "invalid path"⟩ :=
  ⟨(assert_session_path_error_order "abc" "sessions/zzz/../a").1 (by decide),
   (assert_session_path_error_order "abc" "sessions/abc/../a").2 (by decide) (by decide)⟩

/-- C9: path validation is idempotent: a successfully validated path is
validated again unchanged. -/
theorem assert_session_path_idem (S P N : String)
    (h : assert_session_path S P = .ok N) :
    assert_session_path S N = .ok N := by
  rw [assert_ok_iff] at h
  obtain ⟨h1, h2, h3⟩ := h
  subst h3
  rw [assert_ok_iff]
  exact ⟨by rw [lstrip_slashes_idem]; exact h1,
         by rw [lstrip_slashes_idem]; exact h2,
         (lstrip_slashes_idem P).symm⟩

/-- C9 witness: revalidating the normalized result of a validated path
returns it unchanged. -/
theorem assert_session_path_idem_witness :
    assert_session_path "abc" "sessions/abc/a.txt" = .ok "sessions/abc/a.txt" :=
  assert_session_path_idem "abc" "/sessions/abc/a.txt" "sessions/abc/a.txt" (by decide)

/-- C10: only segments exactly equal to ".." are rejected: any path inside
the session prefix none of whose segments equals ".." is accepted, and the
returned normalized path is the stripped input verbatim (so "." segments,
empty segments and segments merely containing ".." survive unchanged). -/
theorem assert_session_path_exact_dotdot_only (S P : String)
    (h1 : py_startswith (lstrip_slashes P) (session_prefix_of S ++ "/") = true)
    (h2 : ∀ seg ∈ py_split_slash (lstrip_slashes P), seg ≠ "..") :
    assert_session_path S P = .ok (lstrip_slashes P) := by
  rw [assert_ok_iff]
  exact ⟨h1, fun hmem => h2 ".." hmem rfl, rfl⟩

/-- C10 witness: a path with a "." segment, an empty segment and a "..a"
segment is accepted and returned verbatim. -/
theorem assert_session_path_exact_dotdot_only_witness :
    assert_session_path "abc" "sessions/abc/./..a//x" = .ok "sessions/abc/./..a//x" :=
  assert_session_path_exact_dotdot_only "abc" "sessions/abc/./..a//x" (by decide) (by decide)

/-- One outbound call to the storage signing broker. Each such call in
main.py also fetches a fresh access token via _get_access_token, so an empty
call list means neither put_signed_url, get_signed_url nor _get_access_token
ran. -/
inductive BrokerCall where
  | put (path : String) (content_type : String)
  | get (path : String)
deriving DecidableEq, Repr

/-- The signing broker: put_signed_url and get_signed_url from main.py
(each including its _get_access_token fetch); an `.error ()` models any
exception raised while obtaining the token or signing. -/
structure Broker where
  put_signed_url : String → String → Except Unit String
  get_signed_url : String → Except Unit String

/-- Request body of the two per-path signing endpoints. -/
structure SignUrlRequest where
  path : String
  contentType : Option String
deriving DecidableEq, Repr

/-- Response body of the two per-path signing endpoints. -/
structure SignUrlResponse where
  url : String
  path : String
deriving DecidableEq, Repr

/-- `sign_upload_url` from main.py, instrumented with the list of broker
calls it performs: default the content type, validate the path, then sign a
PUT URL; an HTTPException from validation propagates, any broker exception
becomes a generic 500. -/
def sign_upload_url (B : Broker) (session_id : String) (req : SignUrlRequest) :
    Except HTTPException SignUrlResponse × List BrokerCall :=
  let content_type := req.contentType.getD "application/octet-stream"
  match assert_session_path session_id req.path with
  | .error e => (.error e, [])
  | .ok path =>
    match B.put_signed_url path content_type with
    | .error _ => (.error ⟨500, "Failed to sign upload URL"⟩, [.put path content_type])
    | .ok url => (.ok ⟨url, path⟩, [.put path content_type])

/-- `sign_read_url` from main.py, instrumented with the list of broker calls
it performs. -/
def sign_read_url (B : Broker) (session_id : String) (req : SignUrlRequest) :
    Except HTTPException SignUrlResponse × List BrokerCall :=
  match assert_session_path session_id req.path with
  | .error e => (.error e, [])
  | .ok path =>
    match B.get_signed_url path with
    | .error _ => (.error ⟨500, "Failed to sign read URL"⟩, [.get path])
    | .ok url => (.ok ⟨url, path⟩, [.get path])

/-- C2: when path validation fails both signing endpoints return the 400
validation error with zero broker calls (so _get_access_token and the
signing functions never run), and when validation succeeds a broker failure
surfaces as a 500 error distinct from the 400 validation error. -/
theorem sign_url_validation_gates_broker (B : Broker) (session_id : String)
    (req : SignUrlRequest) :
    (∀ e, assert_session_path session_id req.path = .error e →
      sign_upload_url B session_id req = (.error e, []) ∧
      sign_read_url B session_id req = (.error e, []) ∧
      e.status_code = 400) ∧
    (∀ path, assert_session_path session_id req.path = .ok path →
      (B.put_signed_url path (req.contentType.getD "application/octet-stream") = .error () →
        (sign_upload_url B session_id req).1 = .error ⟨500, "Failed to sign upload URL"⟩) ∧
      (B.get_signed_url path = .error () →
        (sign_read_url B session_id req).1 = .error ⟨500, "Failed to sign read URL"⟩)) := by
  constructor
  · intro e he
    exact ⟨by simp [sign_upload_url, he], by simp [sign_read_url, he],
           assert_error_400 session_id req.path e he⟩
  · intro path hp
    constructor
    · intro hb
      simp [sign_upload_url, hp, hb]
    · intro hb
      simp [sign_read_url, hp, hb]

/-- A concrete broker whose signing always succeeds. -/
def cBroker : Broker where
  put_signed_url := fun p _ => .ok ("https://storage.example/put/" ++ p)
  get_signed_url := fun p => .ok ("https://storage.example/get/" ++ p)

/-- C2 witness: a cross-session path is rejected with the 400 validation
error and an empty broker-call list, on both endpoints. -/
theorem sign_url_validation_gates_broker_witness :
    sign_upload_url cBroker "abc" ⟨"sessions/xyz/a.txt", none⟩ =
      (.error ⟨400, "path must be inside session prefix"⟩, []) ∧
    sign_read_url cBroker "abc" ⟨"sessions/xyz/a.txt", none⟩ =
      (.error ⟨400, "path must be inside session prefix"⟩, []) := by
  have h := (sign_url_validation_gates_broker cBroker "abc" ⟨"sessions/xyz/a.txt", none⟩).1
    ⟨400, "path must be inside session prefix"⟩ (by decide)
  exact ⟨h.1, h.2.1⟩

/-- Request body of the session-creation endpoint. -/
structure SessionCreateRequest where
  modelId : String
deriving DecidableEq, Repr

/-- One storage-side operation performed by create_session. The `delete`
constructor never occurs in the embedded code; it exists so that the
absence of cleanup is expressible. -/
inductive StorageOp where
  | upload (path : String)
  | sign (method : String) (path : String)
  | delete (path : String)
deriving DecidableEq, Repr

/-- The environment of create_session: configuration read at startup, the
freshly generated uuid4 string, the current ISO timestamp, and the storage
oracles (object upload and URL signing); an `.error ()` models any raised
exception. -/
structure SessionEnv where
  gcs_bucket : String
  new_uuid : String
  now_iso : String
  upload_from_string : String → String → String → Except Unit Unit
  put_signed_url : String → String → Except Unit String
  get_signed_url : String → Except Unit String

/-- Python json.dumps of the metadata dict of create_session, keys in
insertion order with default separators (values assumed to need no JSON
escaping, which holds for uuids, timestamps and plain names). -/
def metadata_json (session_id modelId createdAt bucket pre : String) : String :=
  "\x7b\"sessionId\": \"" ++ session_id ++ "\", \"modelId\": \"" ++ modelId ++
    "\", \"createdAt\": \"" ++ createdAt ++ "\", \"bucket\": \"" ++ bucket ++
    "\", \"prefix\": \"" ++ pre ++ "\"\x7d"

/-- The create_session response dict: exactly these nine keys, in source
order (the `prefix` key is rendered `prefix_str` here). -/
structure SessionDescriptor where
  sessionId : String
  bucket : String
  prefix_str : String
  manifestPath : String
  manifestUploadUrl : String
  manifestReadUrl : String
  uploadUrlEndpoint : String
  readUrlEndpoint : String
  createdAt : String
deriving DecidableEq, Repr

/-- `create_session` from main.py, instrumented with the list of storage
operations it performs in order: write session.json, write the empty
transcript index, sign the manifest PUT URL, sign the manifest GET URL,
then return the descriptor; any step's exception aborts with a generic
500. -/
def create_session (env : SessionEnv) (req : SessionCreateRequest) :
    Except HTTPException SessionDescriptor × List StorageOp :=
  let session_id := env.new_uuid
  let pre := session_prefix_of session_id
  let manifest_path := pre ++ "/manifest.json"
  let transcript_index_path := pre ++ "/transcript/index.json"
  let metadata_str := metadata_json session_id req.modelId env.now_iso env.gcs_bucket pre
  match env.upload_from_string (pre ++ "/session.json") metadata_str "application/json" with
  | .error _ => (.error ⟨500, "Failed to create session"⟩, [.upload (pre ++ "/session.json")])
  | .ok _ =>
    match env.upload_from_string transcript_index_path "\x7b\"items\":[]\x7d" "application/json" with
    | .error _ => (.error ⟨500, "Failed to create session"⟩,
        [.upload (pre ++ "/session.json"), .upload transcript_index_path])
    | .ok _ =>
      match env.put_signed_url manifest_path "application/json" with
      | .error _ => (.error ⟨500, "Failed to create session"⟩,
          [.upload (pre ++ "/session.json"), .upload transcript_index_path,
           .sign "PUT" manifest_path])
      | .ok up_url =>
        match env.get_signed_url manifest_path with
        | .error _ => (.error ⟨500, "Failed to create session"⟩,
            [.upload (pre ++ "/session.json"), .upload transcript_index_path,
             .sign "PUT" manifest_path, .sign "GET" manifest_path])
        | .ok read_url =>
          (.ok ⟨session_id, env.gcs_bucket, pre, manifest_path, up_url, read_url,
              "/api/session/" ++ session_id ++ "/upload-url",
              "/api/session/" ++ session_id ++ "/read-url", env.now_iso⟩,
           [.upload (pre ++ "/session.json"), .upload transcript_index_path,
            .sign "PUT" manifest_path, .sign "GET" manifest_path])

/-- C4: a successful create_session returns a descriptor (of exactly the
nine response fields) whose prefix is "sessions/" + sessionId, whose
manifestPath is prefix + "/manifest.json", whose manifestUploadUrl and
manifestReadUrl are the broker's PUT and GET signed URLs for exactly
manifestPath, and whose endpoint templates and createdAt are as served. -/
theorem create_session_descriptor_fields (env : SessionEnv) (req : SessionCreateRequest)
    (d : SessionDescriptor) (h : (create_session env req).1 = .ok d) :
    d.sessionId = env.new_uuid ∧
    d.bucket = env.gcs_bucket ∧
    d.prefix_str = "sessions/" ++ d.sessionId ∧
    d.manifestPath = d.prefix_str ++ "/manifest.json" ∧
    env.put_signed_url d.manifestPath "application/json" = .ok d.manifestUploadUrl ∧
    env.get_signed_url d.manifestPath = .ok d.manifestReadUrl ∧
    d.uploadUrlEndpoint = "/api/session/" ++ d.sessionId ++ "/upload-url" ∧
    d.readUrlEndpoint = "/api/session/" ++ d.sessionId ++ "/read-url" ∧
    d.createdAt = env.now_iso := by
  rcases e1 : env.upload_from_string (session_prefix_of env.new_uuid ++ "/session.json")
      (metadata_json env.new_uuid req.modelId env.now_iso env.gcs_bucket
        (session_prefix_of env.new_uuid)) "application/json" with u | u
  · simp [create_session, e1] at h
  · rcases e2 : env.upload_from_string (session_prefix_of env.new_uuid ++ "/transcript/index.json")
        "\x7b\"items\":[]\x7d" "application/json" with u2 | u2
    · simp [create_session, e1, e2] at h
    · rcases e3 : env.put_signed_url (session_prefix_of env.new_uuid ++ "/manifest.json")
          "application/json" with u3 | up_url
      · simp [create_session, e1, e2, e3] at h
      · rcases e4 : env.get_signed_url (session_prefix_of env.new_uuid ++ "/manifest.json")
            with u4 | read_url
        · simp [create_session, e1, e2, e3, e4] at h
        · simp only [create_session, e1, e2, e3, e4, Except.ok.injEq] at h
          subst h
          exact ⟨rfl, rfl, rfl, rfl, e3, e4, rfl, rfl, rfl⟩

/-- A concrete create_session environment in which every storage operation
succeeds. -/
def cSessionEnv : SessionEnv where
  gcs_bucket := "talky-bucket"
  new_uuid := "11111111-2222-3333-4444-555555555555"
  now_iso := "2026-01-01T00:00:00+00:00"
  upload_from_string := fun _ _ _ => .ok ()
  put_signed_url := fun p _ => .ok ("https://storage.example/put/" ++ p)
  get_signed_url := fun p => .ok ("https://storage.example/get/" ++ p)

/-- The descriptor create_session returns in cSessionEnv. -/
def cDescriptor : SessionDescriptor where
  sessionId := "11111111-2222-3333-4444-555555555555"
  bucket := "talky-bucket"
  prefix_str := "sessions/11111111-2222-3333-4444-555555555555"
  manifestPath := "sessions/11111111-2222-3333-4444-555555555555/manifest.json"
  manifestUploadUrl :=
    "https://storage.example/put/sessions/11111111-2222-3333-4444-555555555555/manifest.json"
  manifestReadUrl :=
    "https://storage.example/get/sessions/11111111-2222-3333-4444-555555555555/manifest.json"
  uploadUrlEndpoint := "/api/session/11111111-2222-3333-4444-555555555555/upload-url"
  readUrlEndpoint := "/api/session/11111111-2222-3333-4444-555555555555/read-url"
  createdAt := "2026-01-01T00:00:00+00:00"

/-- C4 witness: on a concrete successful run the descriptor's prefix and
manifestPath satisfy the stated equations. -/
theorem create_session_descriptor_fields_witness :
    cDescriptor.prefix_str = "sessions/" ++ cDescriptor.sessionId ∧
    cDescriptor.manifestPath = cDescriptor.prefix_str ++ "/manifest.json" :=
  ⟨(create_session_descriptor_fields cSessionEnv ⟨"gpt-test"⟩ cDescriptor (by decide)).2.2.1,
   (create_session_descriptor_fields cSessionEnv ⟨"gpt-test"⟩ cDescriptor (by decide)).2.2.2.1⟩

/-- C5: if any bootstrap step of create_session fails (either metadata
write, either the transcript-index write, or signing the manifest PUT or
GET URL), the whole operation reports the single generic 500
session-creation failure — so no descriptor is returned — and the storage
trace contains no delete, i.e. no cleanup of already-written objects is
attempted. -/
theorem create_session_failure_generic (env : SessionEnv) (req : SessionCreateRequest)
    (h : env.upload_from_string (session_prefix_of env.new_uuid ++ "/session.json")
          (metadata_json env.new_uuid req.modelId env.now_iso env.gcs_bucket
            (session_prefix_of env.new_uuid)) "application/json" = .error () ∨
         env.upload_from_string (session_prefix_of env.new_uuid ++ "/transcript/index.json")
          "\x7b\"items\":[]\x7d" "application/json" = .error () ∨
         env.put_signed_url (session_prefix_of env.new_uuid ++ "/manifest.json")
          "application/json" = .error () ∨
         env.get_signed_url (session_prefix_of env.new_uuid ++ "/manifest.json") = .error ()) :
    (create_session env req).1 = .error ⟨500, "Failed to create session"⟩ ∧
    ∀ p, StorageOp.delete p ∉ (create_session env req).2 := by
  rcases e1 : env.upload_from_string (session_prefix_of env.new_uuid ++ "/session.json")
      (metadata_json env.new_uuid req.modelId env.now_iso env.gcs_bucket
        (session_prefix_of env.new_uuid)) "application/json" with u | u
  · cases u
    constructor
    · simp [create_session, e1]
    · intro p
      simp [create_session, e1]
  · rcases e2 : env.upload_from_string (session_prefix_of env.new_uuid ++ "/transcript/index.json")
        "\x7b\"items\":[]\x7d" "application/json" with u2 | u2
    · cases u2
      constructor
      · simp [create_session, e1, e2]
      · intro p
        simp [create_session, e1, e2]
    · rcases e3 : env.put_signed_url (session_prefix_of env.new_uuid ++ "/manifest.json")
          "application/json" with u3 | up_url
      · cases u3
        constructor
        · simp [create_session, e1, e2, e3]
        · intro p
          simp [create_session, e1, e2, e3]
      · rcases e4 : env.get_signed_url (session_prefix_of env.new_uuid ++ "/manifest.json")
            with u4 | read_url
        · cases u4
          constructor
          · simp [create_session, e1, e2, e3, e4]
          · intro p
            simp [create_session, e1, e2, e3, e4]
        · cases u
          cases u2
          simp [e1, e2, e3, e4] at h

/-- A create_session environment whose manifest PUT signing fails. -/
def cFailEnv : SessionEnv :=
  { cSessionEnv with put_signed_url := fun _ _ => .error () }

/-- C5 witness: with a failing manifest PUT signing step, create_session
reports the single generic 500 failure. -/
theorem create_session_failure_generic_witness :
    (create_session cFailEnv ⟨"gpt-test"⟩).1 = .error ⟨500, "Failed to create session"⟩ :=
  (create_session_failure_generic cFailEnv ⟨"gpt-test"⟩ (Or.inr (Or.inr (Or.inl rfl)))).1

/-- The config dict create_ephemeral_token passes to the provider's
auth_tokens.create: single use, the connect-window expiry, the
session-start expiry and the API revision. Timestamps are modelled as
seconds since epoch; the isoformat rendering is elided. -/
structure AuthTokenConfig where
  uses : Nat
  expireTime : Nat
  newSessionExpireTime : Nat
  apiVersion : String
deriving DecidableEq, Repr

/-- The provider's token object; the code reads only its name. -/
structure AuthToken where
  name : String
deriving DecidableEq, Repr

/-- Environment of create_ephemeral_token: the current time and the
provider's token-creation oracle; an `.error ()` models any raised
exception. -/
structure TokenEnv where
  now : Nat
  auth_tokens_create : AuthTokenConfig → Except Unit AuthToken

/-- Response body of the ephemeral-token endpoint: exactly the opaque token
name and the fixed expiry report. -/
structure EphemeralTokenResponse where
  token : String
  expiresInSeconds : Nat
deriving DecidableEq, Repr

/-- `create_ephemeral_token` from main.py: request a single-use token with a
30-minute connect window and a 1-minute new-session window, then return only
the token name and a hardcoded expiresInSeconds of 60. -/
def create_ephemeral_token (env : TokenEnv) : Except HTTPException EphemeralTokenResponse :=
  let expire_time := env.now + 30 * 60
  let new_session_expire_time := env.now + 1 * 60
  match env.auth_tokens_create ⟨1, expire_time, new_session_expire_time, "v1alpha"⟩ with
  | .error _ => .error ⟨500, "Failed to create ephemeral token"⟩
  | .ok token => .ok ⟨token.name, 60⟩

/-- C6: every successful ephemeral-token response reports
expiresInSeconds = 60 even though the provider was asked for a 30-minute
(now + 1800 s) connect-window expiry, and the response carries exactly the
opaque name of the token the provider returned. -/
theorem create_ephemeral_token_sixty (env : TokenEnv) (r : EphemeralTokenResponse)
    (h : create_ephemeral_token env = .ok r) :
    r.expiresInSeconds = 60 ∧
    env.auth_tokens_create ⟨1, env.now + 30 * 60, env.now + 1 * 60, "v1alpha"⟩ = .ok ⟨r.token⟩ := by
  rcases hc : env.auth_tokens_create ⟨1, env.now + 30 * 60, env.now + 1 * 60, "v1alpha"⟩
      with u | token
  · simp [create_ephemeral_token, hc] at h
  · obtain ⟨tname⟩ := token
    simp only [create_ephemeral_token, hc, Except.ok.injEq] at h
    subst h
    exact ⟨rfl, rfl⟩

/-- A concrete token environment whose provider always succeeds. -/
def cTokenEnv : TokenEnv where
  now := 1760000000
  auth_tokens_create := fun _ => .ok ⟨"authTokens/tok-1"⟩

/-- C6 witness: on a concrete successful run the reported expiry is 60
seconds. -/
theorem create_ephemeral_token_sixty_witness :
    (⟨"authTokens/tok-1", 60⟩ : EphemeralTokenResponse).expiresInSeconds = 60 :=
  (create_ephemeral_token_sixty cTokenEnv ⟨"authTokens/tok-1", 60⟩ rfl).1

/-- Python str.strip()'s whitespace test (the ASCII whitespace characters). -/
def py_is_space (c : Char) : Bool :=
  c == ' ' || c == '\t' || c == '\n' || c == '\x0b' || c == '\x0c' || c == '\r'

/-- Python `s.strip()`: drop leading and trailing whitespace. -/
def py_strip (s : String) : String :=
  String.mk (((s.data.dropWhile py_is_space).reverse.dropWhile py_is_space).reverse)

/-- Request body of the generate-lesson endpoint. Pydantic additionally
enforces 2 ≤ length ≤ 120 on interest before the handler runs. -/
structure GenerateLessonRequest where
  interest : String
deriving DecidableEq, Repr

/-- A part of a provider candidate's content: its optional text (a non-string
text attribute is modelled as none). -/
structure GenPart where
  text : Option String
deriving DecidableEq, Repr

/-- A provider candidate's content: its optional parts list. -/
structure GenContent where
  parts : Option (List GenPart)
deriving DecidableEq, Repr

/-- One provider candidate: its optional content. -/
structure GenCandidate where
  content : Option GenContent
deriving DecidableEq, Repr

/-- The provider's generation response as the code probes it: an optional
candidates list and an optional top-level text fallback. -/
structure GenResponse where
  candidates : Option (List GenCandidate)
  text : Option String
deriving DecidableEq, Repr

/-- `_build_lesson_prompt` from main.py. -/
def _build_lesson_prompt (interest : String) : String :=
  py_strip ("\nYou are a news researcher. Find the most recent and trending news or issue\nabout \"" ++ interest ++ "\" and write a lesson material in English, approximately\n300 characters.\n\nFormat:\n- First line: title only\n- Second line onward: concise summary with key facts and different perspectives\n- Keep it discussion-friendly for an English conversation class\n- Plain text only (no markdown)\n")

/-- The stripped nonempty text chunks collected from the candidates' parts
(the loop of _extract_text_from_response). -/
def candidate_chunks (cands : List GenCandidate) : List String :=
  cands.foldl (fun acc cand =>
    let parts := (cand.content.bind GenContent.parts).getD []
    acc ++ parts.filterMap (fun part =>
      match part.text with
      | some t => if py_strip t = "" then none else some (py_strip t)
      | none => none)) []

/-- `_extract_text_from_response` from main.py: join the chunks when any
part produced text, otherwise fall back to the stripped top-level text, and
return "" when both are empty. -/
def _extract_text_from_response (resp : GenResponse) : String :=
  let chunks := candidate_chunks (resp.candidates.getD [])
  if chunks ≠ [] then py_strip (String.intercalate "\n" chunks)
  else
    match resp.text with
    | some fb => if py_strip fb = "" then "" else py_strip fb
    | none => ""

/-- Environment of generate_lesson: the provider's generate_content oracle,
taking the prompt; an `.error ()` models any raised exception. -/
structure LessonEnv where
  generate_content : String → Except Unit GenResponse

/-- Response body of the generate-lesson endpoint. -/
structure LessonResponse where
  lessonMaterial : String
deriving DecidableEq, Repr

/-- `generate_lesson` from main.py, instrumented with the number of
provider calls it makes: reject blank interest with 400 before any provider
call, map a provider exception to 500, an empty extraction to 502, and
return the lesson material otherwise. -/
def generate_lesson (env : LessonEnv) (req : GenerateLessonRequest) :
    Except HTTPException LessonResponse × Nat :=
  let interest := py_strip req.interest
  if interest = "" then (.error ⟨400, "interest is required"⟩, 0)
  else
    match env.generate_content (_build_lesson_prompt interest) with
    | .error _ => (.error ⟨500, "Failed to generate lesson"⟩, 1)
    | .ok resp =>
      let lesson_material := _extract_text_from_response resp
      if lesson_material = "" then (.error ⟨502, "Empty response from Gemini"⟩, 1)
      else (.ok ⟨lesson_material⟩, 1)

/-- C7: for every request whose interest is empty after stripping, the
handler returns the 400 error with zero provider calls, i.e. without
contacting generate_content. -/
theorem generate_lesson_empty_interest (env : LessonEnv) (req : GenerateLessonRequest)
    (h : py_strip req.interest = "") :
    generate_lesson env req = (.error ⟨400, "interest is required"⟩, 0) := by
  simp [generate_lesson, h]

/-- A concrete lesson environment whose provider returns one text part. -/
def cLessonEnv : LessonEnv where
  generate_content := fun _ =>
    .ok ⟨some [⟨some ⟨some [⟨some "A headline.\nA summary."⟩]⟩⟩], none⟩

/-- C7 witness: a two-space interest (which passes the pydantic length
bound) strips to empty and is rejected with 400 and zero provider calls. -/
theorem generate_lesson_empty_interest_witness :
    generate_lesson cLessonEnv ⟨"  "⟩ = (.error ⟨400, "interest is required"⟩, 0) :=
  generate_lesson_empty_interest cLessonEnv ⟨"  "⟩ (by decide)

/-- A provider response with zero candidates but a usable top-level text
fallback. -/
def cZeroCandidateResp : GenResponse where
  candidates := some []
  text := some "Fallback lesson text"

/-- A lesson environment whose provider returns cZeroCandidateResp. -/
def cFallbackEnv : LessonEnv where
  generate_content := fun _ => .ok cZeroCandidateResp

/-- C8 counterexample: on a provider response with zero candidates the
handler does NOT return 502 when the response's top-level text attribute is
a nonempty string: the fallback branch of _extract_text_from_response
returns that text and the request succeeds with a 200 lesson. -/
theorem generate_lesson_zero_candidates_cex :
    (cZeroCandidateResp.candidates.getD []).length = 0 ∧
    (generate_lesson cFallbackEnv ⟨"news"⟩).1 = .ok ⟨"Fallback lesson text"⟩ := by
  refine ⟨by decide, by decide⟩

/-- C8 (amended): for every provider response with zero candidates whose
top-level text fallback is also absent or blank, generate_lesson returns the
502 empty-response error; a provider exception instead yields the generic
500 error, so the two upstream failures stay distinct. -/
theorem generate_lesson_zero_candidates_502 (env : LessonEnv)
    (req : GenerateLessonRequest) (resp : GenResponse)
    (h0 : py_strip req.interest ≠ "") :
    (env.generate_content (_build_lesson_prompt (py_strip req.interest)) = .ok resp →
      resp.candidates.getD [] = [] →
      py_strip (resp.text.getD "") = "" →
      (generate_lesson env req).1 = .error ⟨502, "Empty response from Gemini"⟩) ∧
    (env.generate_content (_build_lesson_prompt (py_strip req.interest)) = .error () →
      (generate_lesson env req).1 = .error ⟨500, "Failed to generate lesson"⟩) := by
  constructor
  · intro h1 h2 h3
    have hext : _extract_text_from_response resp = "" := by
      rcases htext : resp.text with _ | fb
      · simp [_extract_text_from_response, candidate_chunks, h2, htext]
      · have h3f : py_strip fb = "" := by simpa [htext] using h3
        simp [_extract_text_from_response, candidate_chunks, h2, htext, h3f]
    simp [generate_lesson, h0, h1, hext]
  · intro h1
    simp [generate_lesson, h0, h1]

/-- A lesson environment whose provider returns a response with no
candidates and no top-level text. -/
def cEmptyRespEnv : LessonEnv where
  generate_content := fun _ => .ok ⟨none, none⟩

/-- C8 witness: with a fully empty provider response the handler returns the
502 empty-response error. -/
theorem generate_lesson_zero_candidates_502_witness :
    (generate_lesson cEmptyRespEnv ⟨"news"⟩).1 = .error ⟨502, "Empty response from Gemini"⟩ :=
  (generate_lesson_zero_candidates_502 cEmptyRespEnv ⟨"news"⟩ ⟨none, none⟩
    (by decide)).1 rfl rfl rfl
